import Mathlib

/-!
Verification development for `api/types/statictokens.go`: the StaticTokens
configuration resource, its defaulting, schema assembly, and the default
marshaler strategy (encode/decode pipeline).

Embedding conventions:
* Go strings are `String`, `int64` is `Int` (no arithmetic is performed on
  resource IDs, only assignment and comparison with zero, so no wrap-around
  modelling is needed), `time.Time` is `Nat` with `0` as the zero timestamp.
* Functions that mutate a value through a pointer and return an `error` are
  embedded as functions returning `Except TraceErr α` carrying the new value.
* The external structured-encoding routines (`utils.FastMarshal`,
  `utils.FastUnmarshal`, `utils.UnmarshalWithSchema`), the `trace` error
  package, the `Metadata` envelope, the marshal options and the shared schema
  constants live outside the given source file; they are modelled from the
  spec where the spec constrains them (each such definition says so in its
  doc comment).
-/

/-- Modelled from the spec: `time.Time` values as used here. The spec only
needs a timestamp with a distinguished zero value ("zero value = no expiry"),
so we embed timestamps as `Nat`, with `0` as the zero timestamp. -/
abbrev GoTime := Nat

/-- Modelled from the spec: a `time.Time` is "zero" when it equals the zero
timestamp (Go `Time.IsZero`). -/
def GoTime.IsZero (t : GoTime) : Bool := t == 0

/-- Modelled from the spec: the error kinds of the `trace` package that this
file uses: `trace.BadParameter` (an error classified as bad-parameter, with a
message), `trace.Wrap` (annotates an error without reclassifying it), and any
other error surfaced by an external collaborator. -/
inductive TraceErr where
  | badParameter (msg : String)
  | wrap (e : TraceErr)
  | other (msg : String)
deriving DecidableEq

/-- Modelled from the spec: `err.Error()`, the human-readable message of an
error; wrapping annotates but we keep the underlying message. -/
def TraceErr.message : TraceErr → String
  | .badParameter m => m
  | .wrap e => e.message
  | .other m => m

/-- Modelled from the spec: whether an error is of the `BadParameter` kind;
wrapping does not reclassify an error ("annotated with call-site context but
not reclassified"). -/
def TraceErr.IsBadParameter : TraceErr → Bool
  | .badParameter _ => true
  | .wrap e => e.IsBadParameter
  | .other _ => false

/-- Modelled from the spec: the process-wide default namespace constant
(`defaults.Namespace`), used when an envelope's namespace is empty. -/
def defaultsNamespace : String := "default"

/-- Modelled from the spec: the Resource Envelope metadata carried by every
resource: name (identity key), namespace, storage-assigned resource ID
(zero = unset) and optional expiry (zero timestamp = no expiry). -/
structure Metadata where
  Name : String
  Namespace : String
  ID : Int
  Expires : GoTime
deriving DecidableEq

/-- Modelled from the spec: `Metadata.CheckAndSetDefaults` — fills `Namespace`
with the process default if empty and validates that `Name` is non-empty,
failing with a `BadParameter`-class error if not. Returns the defaulted
metadata on success. -/
def Metadata.CheckAndSetDefaults (m : Metadata) : Except TraceErr Metadata :=
  let m := if m.Namespace = "" then { m with Namespace := defaultsNamespace } else m
  if m.Name = "" then .error (.badParameter ("missing parameter Name"))
  else .ok m

/-- Modelled from the spec: `Metadata.Expiry` returns the expiry setting
(zero timestamp when unset). -/
def Metadata.Expiry (m : Metadata) : GoTime := m.Expires

/-- Modelled from the spec: `Metadata.SetExpiry` sets the expiry timestamp
(setting the zero timestamp clears expiry, which in this embedding is the
same as storing the zero value). -/
def Metadata.SetExpiry (m : Metadata) (expires : GoTime) : Metadata :=
  { m with Expires := expires }

/-- Modelled from the spec: a Token Entry of the payload — token string, role
names and optional expiry (the legacy `ProvisionTokenV1` representation the
payload stores). -/
structure ProvisionTokenV1 where
  Roles : List String
  Expires : GoTime
  Token : String
deriving DecidableEq

/-- `StaticTokensSpecV2` — the domain payload: an ordered list of static
token entries (from the generated resource struct the source operates on). -/
structure StaticTokensSpecV2 where
  StaticTokens : List ProvisionTokenV1
deriving DecidableEq

/-- `StaticTokensV2` — the typed resource: envelope fields `Kind`, `SubKind`,
`Version`, the `Metadata` block, and the `Spec` payload (from the generated
resource struct the source operates on). -/
structure StaticTokensV2 where
  Kind : String
  SubKind : String
  Version : String
  Metadata : Metadata
  Spec : StaticTokensSpecV2
deriving DecidableEq

/-- `GetVersion` returns resource version. -/
def StaticTokensV2.GetVersion (c : StaticTokensV2) : String := c.Version

/-- `GetKind` returns resource kind. -/
def StaticTokensV2.GetKind (c : StaticTokensV2) : String := c.Kind

/-- `GetSubKind` returns resource sub kind. -/
def StaticTokensV2.GetSubKind (c : StaticTokensV2) : String := c.SubKind

/-- `GetResourceID` returns resource ID. -/
def StaticTokensV2.GetResourceID (c : StaticTokensV2) : Int := c.Metadata.ID

/-- `SetResourceID` sets resource ID. -/
def StaticTokensV2.SetResourceID (c : StaticTokensV2) (id : Int) : StaticTokensV2 :=
  { c with Metadata := { c.Metadata with ID := id } }

/-- `GetName` returns the name of the StaticTokens resource. -/
def StaticTokensV2.GetName (c : StaticTokensV2) : String := c.Metadata.Name

/-- `SetName` sets the name of the StaticTokens resource. -/
def StaticTokensV2.SetName (c : StaticTokensV2) (e : String) : StaticTokensV2 :=
  { c with Metadata := { c.Metadata with Name := e } }

/-- `Expiry` returns object expiry setting. -/
def StaticTokensV2.Expiry (c : StaticTokensV2) : GoTime := c.Metadata.Expiry

/-- `SetExpiry` sets expiry time for the object. -/
def StaticTokensV2.SetExpiry (c : StaticTokensV2) (expires : GoTime) : StaticTokensV2 :=
  { c with Metadata := c.Metadata.SetExpiry expires }

/-- `CheckAndSetDefaults` checks validity of all parameters and sets
defaults: it delegates to the embedded metadata's defaulting and wraps any
failure. -/
def StaticTokensV2.CheckAndSetDefaults (c : StaticTokensV2) : Except TraceErr StaticTokensV2 :=
  match c.Metadata.CheckAndSetDefaults with
  | .error err => .error (.wrap err)
  | .ok md => .ok { c with Metadata := md }

/-- Modelled from the spec: the constant `KindStaticTokens` ("static_tokens"),
the fixed kind stamped on the resource. -/
def KindStaticTokens : String := "static_tokens"

/-- Modelled from the spec: the constant `V2` ("v2"), the format revision. -/
def V2 : String := "v2"

/-- Modelled from the spec: the constant `MetaNameStaticTokens`
("static_tokens"), the fixed name of the singleton resource. -/
def MetaNameStaticTokens : String := "static_tokens"

/-- `NewStaticTokens` is a convenience wrapper to create a StaticTokens
resource: it stamps kind/version/name/namespace, runs `CheckAndSetDefaults`
and fails (returning no resource) if defaulting fails. -/
def NewStaticTokens (spec : StaticTokensSpecV2) : Except TraceErr StaticTokensV2 :=
  let st : StaticTokensV2 :=
    { Kind := KindStaticTokens
      SubKind := ""
      Version := V2
      Metadata :=
        { Name := MetaNameStaticTokens
          Namespace := defaultsNamespace
          ID := 0
          Expires := 0 }
      Spec := spec }
  match st.CheckAndSetDefaults with
  | .error err => .error (.wrap err)
  | .ok st => .ok st

/-- `DefaultStaticTokens` is used to get the default static tokens (empty
list) when nothing is specified in file configuration. -/
def DefaultStaticTokens : StaticTokensV2 :=
  { Kind := KindStaticTokens
    SubKind := ""
    Version := V2
    Metadata :=
      { Name := MetaNameStaticTokens
        Namespace := defaultsNamespace
        ID := 0
        Expires := 0 }
    Spec := { StaticTokens := [] } }

/-- Helper for the `fmt.Sprintf` model: interleaves the pieces of the format
string (already split at the `%v` verbs) with the argument list, substituting
arguments left to right; a missing argument renders Go's `%!v(MISSING)`. -/
def sprintfVGo : List String → List String → String
  | [], _ => ""
  | [p], _ => p
  | p :: ps, [] => p ++ "%!v(MISSING)" ++ sprintfVGo ps []
  | p :: ps, a :: rest => p ++ a ++ sprintfVGo ps rest

/-- Modelled from the spec: `fmt.Sprintf` restricted to `%v` verbs on string
arguments, which is the only form the source uses — each `%v` in the format
is replaced by the corresponding argument, left to right. -/
def sprintfV (format : String) (args : List String) : String :=
  sprintfVGo (format.splitOn ("%v")) args

/-- `StaticTokensSpecSchemaTemplate` is a template for StaticTokens schema
(the exact string constant of the source, with one `%v` injection point after
the `static_tokens` property). -/
def StaticTokensSpecSchemaTemplate : String :=
  "\x7b\n\t\"type\": \"object\",\n\t\"additionalProperties\": false,\n\t\"properties\": \x7b\n\t\t\"static_tokens\": \x7b\n\t\t\t\"type\": \"array\",\n\t\t\t\"items\": \x7b\n\t\t\t\t\"type\": \"object\",\n\t\t\t\t\"additionalProperties\": false,\n\t\t\t\t\"properties\": \x7b\n\t\t\t\t\t\"expires\": \x7b\n\t\t\t\t\t\t\"type\": \"string\"\n\t\t\t\t\t\x7d,\n\t\t\t\t\t\"roles\": \x7b\n\t\t\t\t\t\t\"type\": \"array\",\n\t\t\t\t\t\t\"items\": \x7b\n\t\t\t\t\t\t\t\"type\": \"string\"\n\t\t\t\t\t\t\x7d\n\t\t\t\t\t\x7d,\n\t\t\t\t\t\"token\": \x7b\n\t\t\t\t\t\t\"type\": \"string\"\n\t\t\t\t\t\x7d\n\t\t\t\t\x7d\n\t\t\t\x7d\n\t\t\x7d%v\n  \t\x7d\n\x7d"

/-- Modelled from the spec: the outer envelope-schema template
(`V2SchemaTemplate`), a shared constant outside this source file, with three
substitution points filled in order with the metadata-schema fragment, the
payload schema and the shared type-definitions fragment. -/
def V2SchemaTemplate : String :=
  "\x7b\n  \"type\": \"object\",\n  \"additionalProperties\": false,\n  \"required\": [\"kind\", \"spec\", \"metadata\", \"version\"],\n  \"properties\": \x7b\n    \"kind\": \x7b\"type\": \"string\"\x7d,\n    \"sub_kind\": \x7b\"type\": \"string\"\x7d,\n    \"version\": \x7b\"type\": \"string\", \"default\": \"v2\"\x7d,\n    \"metadata\": %v,\n    \"spec\": %v\n  \x7d%v\x7d"

/-- Modelled from the spec: the shared metadata-schema fragment
(`MetadataSchema`), a constant outside this source file. -/
def MetadataSchema : String :=
  "\x7b\"type\": \"object\", \"properties\": \x7b\"name\": \x7b\"type\": \"string\"\x7d, \"namespace\": \x7b\"type\": \"string\"\x7d\x7d\x7d"

/-- Modelled from the spec: the shared type-definitions fragment
(`DefaultDefinitions`), a constant outside this source file. -/
def DefaultDefinitions : String :=
  ",\n  \"definitions\": \x7b\x7d\n"

/-- `GetStaticTokensSchema` returns the schema with optionally injected
schema for extensions. Embedded statement by statement from the source: note
that the branch condition reads the freshly declared local
`staticTokensSchema` (which is always empty), not the `extensionSchema`
argument. -/
def GetStaticTokensSchema (extensionSchema : String) : String :=
  let staticTokensSchema : String := ""
  let staticTokensSchema :=
    if staticTokensSchema = "" then
      sprintfV StaticTokensSpecSchemaTemplate [("")]
    else
      sprintfV StaticTokensSpecSchemaTemplate [("," ++ extensionSchema)]
  sprintfV V2SchemaTemplate [MetadataSchema, staticTokensSchema, DefaultDefinitions]

/-- Modelled from the spec: the Marshal Options configuration snapshot with
the recognized option keys `SkipValidation`, `PreserveResourceID`, `ID`,
`Expires`. -/
structure MarshalConfig where
  ID : Int
  Expires : GoTime
  SkipValidation : Bool
  PreserveResourceID : Bool
deriving DecidableEq

/-- Modelled from the spec: the zero `MarshalConfig` every option collection
starts from (all options unset). -/
def MarshalConfig.zero : MarshalConfig :=
  { ID := 0, Expires := 0, SkipValidation := false, PreserveResourceID := false }

/-- Modelled from the spec: a `MarshalOption` is a per-call option that edits
the configuration snapshot and may fail. -/
abbrev MarshalOption := MarshalConfig → Except TraceErr MarshalConfig

/-- Modelled from the spec: `CollectOptions` constructs a fresh configuration
snapshot from a variadic option list, applying each option in order and
propagating the first failure. -/
def CollectOptions (opts : List MarshalOption) : Except TraceErr MarshalConfig :=
  List.foldlM (fun cfg o => o cfg) MarshalConfig.zero opts

/-- Modelled from the spec: the wire representation produced by the external
structured-encoding routine. The spec assumes the routine is deterministic
and lossless for the domain types used here, so a wire stream is a list of
abstract items, where a well-formed encoding of a resource is the singleton
item carrying it and anything else fails structural decoding; the empty list
is the empty byte slice (`len(bytes) == 0`). -/
inductive WireItem where
  | enc (r : StaticTokensV2)
  | junk (n : Nat)
deriving DecidableEq

/-- Wire streams standing for Go byte slices. -/
abbrev WireBytes := List WireItem

/-- Modelled from the spec: `utils.FastMarshal`, the external structured
encoder — deterministic and lossless on the domain types used here. -/
def FastMarshal (r : StaticTokensV2) : Except TraceErr WireBytes :=
  .ok [WireItem.enc r]

/-- Modelled from the spec: `utils.FastUnmarshal`, the fast/unchecked decode
path — inverts `FastMarshal`, failing structurally on anything else. -/
def FastUnmarshal (bytes : WireBytes) : Except TraceErr StaticTokensV2 :=
  match bytes with
  | [WireItem.enc r] => .ok r
  | _ => .error (.other ("failed to unmarshal resource"))

/-- Modelled from the spec: `utils.UnmarshalWithSchema`, the schema-validated
decode path. On the abstract wire model a well-formed encoding always
satisfies the assembled schema, so validation distinguishes itself from the
fast path only in its error message; the schema document is received but the
abstract wire items give it nothing further to reject. -/
def UnmarshalWithSchema (schema : String) (bytes : WireBytes) :
    Except TraceErr StaticTokensV2 :=
  match bytes with
  | [WireItem.enc r] => .ok r
  | _ => .error (.other ("schema validation failed, schema length " ++ toString schema.length))

/-- A value of the `StaticTokens` interface as seen by the marshaler's
dynamic type switch: either the concrete `*StaticTokensV2` this strategy
understands, or some other implementation, of which only the Go type name
(what `%T` renders) matters to the source. -/
inductive StaticTokensIface where
  | v2 (r : StaticTokensV2)
  | otherImpl (goType : String)
deriving DecidableEq

/-- `Unmarshal` unmarshals StaticTokens from JSON: rejects empty input,
collects options, decodes (fast path or schema-validated), runs
`CheckAndSetDefaults`, then applies nonzero ID/Expires overrides. -/
def teleportStaticTokensMarshaler.Unmarshal (bytes : WireBytes)
    (opts : List MarshalOption) : Except TraceErr StaticTokensV2 :=
  if bytes.length == 0 then .error (.badParameter ("missing resource data"))
  else
    match CollectOptions opts with
    | .error err => .error (.wrap err)
    | .ok cfg =>
      let decoded : Except TraceErr StaticTokensV2 :=
        if cfg.SkipValidation then
          match FastUnmarshal bytes with
          | .error err => .error (.badParameter err.message)
          | .ok st => .ok st
        else
          match UnmarshalWithSchema (GetStaticTokensSchema ("")) bytes with
          | .error err => .error (.badParameter err.message)
          | .ok st => .ok st
      match decoded with
      | .error err => .error err
      | .ok staticTokens =>
        match staticTokens.CheckAndSetDefaults with
        | .error err => .error (.wrap err)
        | .ok staticTokens =>
          let staticTokens :=
            if cfg.ID != 0 then staticTokens.SetResourceID cfg.ID else staticTokens
          let staticTokens :=
            if !cfg.Expires.IsZero then staticTokens.SetExpiry cfg.Expires else staticTokens
          .ok staticTokens

/-- `Marshal` marshals StaticTokens to JSON. The result pairs the returned
bytes-or-error with the caller's resource value as it stands after the call:
the source only ever reassigns its local pointer to a stripped copy and never
writes through the caller's pointer, so every branch hands back `c`. -/
def teleportStaticTokensMarshaler.Marshal (c : StaticTokensIface)
    (opts : List MarshalOption) : Except TraceErr WireBytes × StaticTokensIface :=
  match CollectOptions opts with
  | .error err => (.error (.wrap err), c)
  | .ok cfg =>
    match c with
    | .v2 resource =>
      if !cfg.PreserveResourceID then
        let copy := resource
        let copy := copy.SetResourceID 0
        (FastMarshal copy, c)
      else
        (FastMarshal resource, c)
    | .otherImpl goType =>
      (.error (.badParameter ("unrecognized resource version " ++ goType)), c)

instance {ε α : Type} [DecidableEq ε] [DecidableEq α] : DecidableEq (Except ε α) :=
  fun x y =>
  match x, y with
  | .ok a, .ok b =>
    if h : a = b then .isTrue (by rw [h])
    else .isFalse (fun hc => h (Except.ok.inj hc))
  | .error e, .error f =>
    if h : e = f then .isTrue (by rw [h])
    else .isFalse (fun hc => h (Except.error.inj hc))
  | .ok _, .error _ => .isFalse (fun hc => Except.noConfusion hc)
  | .error _, .ok _ => .isFalse (fun hc => Except.noConfusion hc)

theorem defaultsNamespace_ne_empty : defaultsNamespace ≠ "" := by decide

theorem metadata_casd_idem (m m' : Metadata)
    (h : m.CheckAndSetDefaults = .ok m') : m'.CheckAndSetDefaults = .ok m' := by
  simp only [Metadata.CheckAndSetDefaults] at h ⊢
  by_cases h1 : m.Namespace = "" <;> by_cases h2 : m.Name = "" <;>
    simp [h1, h2] at h <;> subst h <;>
    simp [h1, h2, defaultsNamespace_ne_empty]

theorem metadata_casd_setID (m : Metadata) (id : Int) :
    Metadata.CheckAndSetDefaults { m with ID := id } =
      (m.CheckAndSetDefaults).map (fun md => { md with ID := id }) := by
  simp only [Metadata.CheckAndSetDefaults]
  by_cases h1 : m.Namespace = "" <;> by_cases h2 : m.Name = "" <;>
    simp [h1, h2, Except.map]

theorem casd_setResourceID (c c' : StaticTokensV2) (id : Int)
    (h : c.CheckAndSetDefaults = .ok c') :
    (c.SetResourceID id).CheckAndSetDefaults = .ok (c'.SetResourceID id) := by
  simp only [StaticTokensV2.CheckAndSetDefaults, StaticTokensV2.SetResourceID] at h ⊢
  rw [metadata_casd_setID]
  cases hm : c.Metadata.CheckAndSetDefaults with
  | error e => rw [hm] at h; exact absurd h (by simp)
  | ok md =>
    rw [hm] at h
    simp only [Except.ok.injEq] at h
    subst h
    simp [Except.map]

/-- C1. The schema assembler never injects the extension fragment: for every
fragment `s`, `GetStaticTokensSchema s` renders the payload-schema template
with no extra properties, identically to the empty-fragment call, because the
branch tests a freshly declared empty local instead of the argument. This
evaluates the code at the failing input `"foo"` (and every other input). -/
theorem getStaticTokensSchema_never_injects_extension :
    ∀ s : String, GetStaticTokensSchema s = GetStaticTokensSchema ("") := by
  intro s
  simp only [GetStaticTokensSchema, if_true]

/-- C3. Decoding an empty byte slice fails with `BadParameter` ("missing
resource data") for every option list — the empty-input check precedes option
collection — and, the embedding being a total function, never panics. -/
theorem unmarshal_empty_input_badParameter (opts : List MarshalOption) :
    teleportStaticTokensMarshaler.Unmarshal [] opts =
        .error (.badParameter ("missing resource data")) ∧
      (TraceErr.badParameter ("missing resource data")).IsBadParameter = true :=
  ⟨rfl, rfl⟩

/-- C5. Defaulting is idempotent: running `CheckAndSetDefaults` and then
running it again on the result is the same as running it once (and a failure
propagates unchanged). -/
theorem staticTokens_checkAndSetDefaults_idempotent (c : StaticTokensV2) :
    (c.CheckAndSetDefaults).bind StaticTokensV2.CheckAndSetDefaults =
      c.CheckAndSetDefaults := by
  cases hm : c.Metadata.CheckAndSetDefaults with
  | error e => simp [StaticTokensV2.CheckAndSetDefaults, hm, Except.bind]
  | ok md =>
    have hidem := metadata_casd_idem c.Metadata md hm
    simp [StaticTokensV2.CheckAndSetDefaults, hm, hidem, Except.bind]

/-- C6. Encoding never mutates the caller's resource: the caller's value
after the call is exactly the value before it, on every path (including the
error paths); and when `PreserveResourceID` is unset the bytes produced are
the encoding of a copy whose resource ID has been reset to zero. -/
theorem marshal_never_mutates_caller (c : StaticTokensIface)
    (opts : List MarshalOption) :
    (teleportStaticTokensMarshaler.Marshal c opts).2 = c ∧
      (∀ r cfg, c = .v2 r → CollectOptions opts = .ok cfg →
        cfg.PreserveResourceID = false →
        (teleportStaticTokensMarshaler.Marshal c opts).1 =
          FastMarshal (r.SetResourceID 0)) := by
  constructor
  · cases hcol : CollectOptions opts with
    | error e => simp [teleportStaticTokensMarshaler.Marshal, hcol]
    | ok cfg =>
      cases c with
      | v2 r =>
        simp only [teleportStaticTokensMarshaler.Marshal, hcol]
        split <;> rfl
      | otherImpl g => simp [teleportStaticTokensMarshaler.Marshal, hcol]
  · intro r cfg hc hcol hp
    subst hc
    simp [teleportStaticTokensMarshaler.Marshal, hcol, hp]

theorem marshal_never_mutates_caller_witness :
    (teleportStaticTokensMarshaler.Marshal (.v2 DefaultStaticTokens) []).2 =
        .v2 DefaultStaticTokens ∧
      (teleportStaticTokensMarshaler.Marshal (.v2 DefaultStaticTokens) []).1 =
        FastMarshal (DefaultStaticTokens.SetResourceID 0) :=
  ⟨(marshal_never_mutates_caller (.v2 DefaultStaticTokens) []).1,
    (marshal_never_mutates_caller (.v2 DefaultStaticTokens) []).2
      DefaultStaticTokens MarshalConfig.zero rfl rfl rfl⟩

/-- C7. Encoding a value of the interface whose concrete type is not the one
this strategy understands yields a `BadParameter` error whose message names
the concrete type (what Go `%T` renders), produces no bytes, and leaves the
caller's value untouched. -/
theorem marshal_unrecognized_type_badParameter (goType : String)
    (opts : List MarshalOption) (cfg : MarshalConfig)
    (hcol : CollectOptions opts = .ok cfg) :
    teleportStaticTokensMarshaler.Marshal (.otherImpl goType) opts =
        (.error (.badParameter ("unrecognized resource version " ++ goType)),
          .otherImpl goType) ∧
      (TraceErr.badParameter
          ("unrecognized resource version " ++ goType)).IsBadParameter = true := by
  refine ⟨?_, rfl⟩
  simp [teleportStaticTokensMarshaler.Marshal, hcol]

theorem marshal_unrecognized_type_badParameter_witness :
    teleportStaticTokensMarshaler.Marshal (.otherImpl ("*types.FakeStaticTokens")) [] =
        (.error (.badParameter
            ("unrecognized resource version " ++ "*types.FakeStaticTokens")),
          .otherImpl ("*types.FakeStaticTokens")) ∧
      (TraceErr.badParameter
          ("unrecognized resource version " ++
            "*types.FakeStaticTokens")).IsBadParameter = true :=
  marshal_unrecognized_type_badParameter ("*types.FakeStaticTokens") []
    MarshalConfig.zero rfl

theorem fastUnmarshal_ok_shape (bytes : WireBytes) (r : StaticTokensV2)
    (h : FastUnmarshal bytes = .ok r) : bytes = [WireItem.enc r] := by
  unfold FastUnmarshal at h
  split at h
  · simp only [Except.ok.injEq] at h
    subst h
    rfl
  · exact absurd h (by simp)

theorem unmarshalWithSchema_ok_shape (schema : String) (bytes : WireBytes)
    (r : StaticTokensV2) (h : UnmarshalWithSchema schema bytes = .ok r) :
    bytes = [WireItem.enc r] := by
  unfold UnmarshalWithSchema at h
  split at h
  · simp only [Except.ok.injEq] at h
    subst h
    rfl
  · exact absurd h (by simp)

theorem unmarshal_enc_eval (r st0 : StaticTokensV2) (opts : List MarshalOption)
    (cfg : MarshalConfig) (hcol : CollectOptions opts = .ok cfg)
    (hcasd : r.CheckAndSetDefaults = .ok st0) :
    teleportStaticTokensMarshaler.Unmarshal [WireItem.enc r] opts =
      .ok (if !cfg.Expires.IsZero then
             (if cfg.ID != 0 then st0.SetResourceID cfg.ID else st0).SetExpiry
               cfg.Expires
           else
             (if cfg.ID != 0 then st0.SetResourceID cfg.ID else st0)) := by
  simp only [teleportStaticTokensMarshaler.Unmarshal, hcol, FastUnmarshal,
    UnmarshalWithSchema, List.length, hcasd]
  cases hsv : cfg.SkipValidation <;> simp [hsv, hcasd]

theorem unmarshal_ok_inv (bytes : WireBytes) (opts : List MarshalOption)
    (st : StaticTokensV2)
    (h : teleportStaticTokensMarshaler.Unmarshal bytes opts = .ok st) :
    ∃ cfg r st0, CollectOptions opts = .ok cfg ∧ bytes = [WireItem.enc r] ∧
      r.CheckAndSetDefaults = .ok st0 ∧
      st = (if !cfg.Expires.IsZero then
              (if cfg.ID != 0 then st0.SetResourceID cfg.ID else st0).SetExpiry
                cfg.Expires
            else
              (if cfg.ID != 0 then st0.SetResourceID cfg.ID else st0)) := by
  simp only [teleportStaticTokensMarshaler.Unmarshal] at h
  split at h
  · exact absurd h (by simp)
  · split at h
    · exact absurd h (by simp)
    · rename_i cfg hcol
      split at h
      · exact absurd h (by simp)
      · rename_i staticTokens hdec
        split at hdec
        · rename_i hsv
          split at hdec
          · exact absurd hdec (by simp)
          · rename_i r hfast
            simp only [Except.ok.injEq] at hdec
            subst hdec
            split at h
            · exact absurd h (by simp)
            · rename_i st0 hcasd
              simp only [Except.ok.injEq] at h
              exact ⟨cfg, r, st0, hcol, fastUnmarshal_ok_shape _ _ hfast, hcasd,
                h.symm⟩
        · rename_i hsv
          split at hdec
          · exact absurd hdec (by simp)
          · rename_i r hschema
            simp only [Except.ok.injEq] at hdec
            subst hdec
            split at h
            · exact absurd h (by simp)
            · rename_i st0 hcasd
              simp only [Except.ok.injEq] at h
              exact ⟨cfg, r, st0, hcol, unmarshalWithSchema_ok_shape _ _ _ hschema,
                hcasd, h.symm⟩

/-- C2. Round-trip: for every already-defaulted (valid) resource `r`,
encoding with default options and decoding the produced bytes with default
options succeeds and returns `r` with only its resource ID changed, to zero
(stripped by `Marshal` since `PreserveResourceID` is unset). -/
theorem staticTokens_marshal_unmarshal_roundtrip (r : StaticTokensV2)
    (hvalid : r.CheckAndSetDefaults = .ok r) (bs : WireBytes)
    (henc : (teleportStaticTokensMarshaler.Marshal (.v2 r) []).1 = .ok bs) :
    teleportStaticTokensMarshaler.Unmarshal bs [] =
      .ok (r.SetResourceID 0) := by
  have hb : bs = [WireItem.enc (r.SetResourceID 0)] := by
    simp only [teleportStaticTokensMarshaler.Marshal, FastMarshal] at henc
    simp only [show CollectOptions [] = .ok MarshalConfig.zero from rfl] at henc
    simp only [MarshalConfig.zero, Bool.not_false, if_pos, Except.ok.injEq] at henc
    exact henc.symm
  subst hb
  have h0 : (r.SetResourceID 0).CheckAndSetDefaults = .ok (r.SetResourceID 0) :=
    casd_setResourceID r r 0 hvalid
  have heval := unmarshal_enc_eval (r.SetResourceID 0) (r.SetResourceID 0) []
    MarshalConfig.zero rfl h0
  simpa [MarshalConfig.zero, GoTime.IsZero] using heval

theorem staticTokens_marshal_unmarshal_roundtrip_witness :
    DefaultStaticTokens.CheckAndSetDefaults = .ok DefaultStaticTokens ∧
      (teleportStaticTokensMarshaler.Marshal (.v2 DefaultStaticTokens) []).1 =
        .ok [WireItem.enc (DefaultStaticTokens.SetResourceID 0)] ∧
      teleportStaticTokensMarshaler.Unmarshal
          [WireItem.enc (DefaultStaticTokens.SetResourceID 0)] [] =
        .ok (DefaultStaticTokens.SetResourceID 0) :=
  ⟨by decide, by decide,
    staticTokens_marshal_unmarshal_roundtrip DefaultStaticTokens (by decide)
      [WireItem.enc (DefaultStaticTokens.SetResourceID 0)] (by decide)⟩

/-- C4. Override precedence: whenever decoding succeeds and the collected
options carry a nonzero ID, the returned resource's ID equals that option
value, regardless of what the encoded bytes contained (the override runs
after defaulting, so it wins). -/
theorem unmarshal_id_override_wins (bytes : WireBytes)
    (opts : List MarshalOption) (cfg : MarshalConfig) (st : StaticTokensV2)
    (hcol : CollectOptions opts = .ok cfg) (hid : cfg.ID ≠ 0)
    (hok : teleportStaticTokensMarshaler.Unmarshal bytes opts = .ok st) :
    st.GetResourceID = cfg.ID := by
  obtain ⟨cfg', r, st0, hcol', hb, hcasd, hst⟩ := unmarshal_ok_inv bytes opts st hok
  rw [hcol] at hcol'
  simp only [Except.ok.injEq] at hcol'
  subst hcol'
  subst hst
  have hid' : (cfg.ID != 0) = true := by simpa using hid
  split <;>
    simp [hid', StaticTokensV2.GetResourceID, StaticTokensV2.SetExpiry,
      Metadata.SetExpiry, StaticTokensV2.SetResourceID]

theorem unmarshal_id_override_wins_witness :
    CollectOptions [fun cfg => .ok { cfg with ID := 42 }] =
        .ok { MarshalConfig.zero with ID := 42 } ∧
      ({ MarshalConfig.zero with ID := 42 } : MarshalConfig).ID ≠ 0 ∧
      teleportStaticTokensMarshaler.Unmarshal
          [WireItem.enc (DefaultStaticTokens.SetResourceID 7)]
          [fun cfg => .ok { cfg with ID := 42 }] =
        .ok (DefaultStaticTokens.SetResourceID 42) ∧
      (DefaultStaticTokens.SetResourceID 42).GetResourceID =
        ({ MarshalConfig.zero with ID := 42 } : MarshalConfig).ID :=
  ⟨rfl, by decide, by decide,
    unmarshal_id_override_wins [WireItem.enc (DefaultStaticTokens.SetResourceID 7)]
      [fun cfg => .ok { cfg with ID := 42 }] { MarshalConfig.zero with ID := 42 }
      (DefaultStaticTokens.SetResourceID 42) rfl (by decide) (by decide)⟩

/-- C10. Zero-valued overrides are never applied: when decoding succeeds, a
collected ID option equal to zero leaves the resource ID exactly as produced
by decoding and defaulting, and a collected Expires option equal to the zero
timestamp likewise leaves the expiry untouched — the options cannot force
either field to zero. -/
theorem unmarshal_zero_overrides_not_applied (bytes : WireBytes)
    (opts : List MarshalOption) (cfg : MarshalConfig)
    (r st0 st : StaticTokensV2)
    (hcol : CollectOptions opts = .ok cfg)
    (hdec : FastUnmarshal bytes = .ok r)
    (hcasd : r.CheckAndSetDefaults = .ok st0)
    (hok : teleportStaticTokensMarshaler.Unmarshal bytes opts = .ok st) :
    (cfg.ID = 0 → st.GetResourceID = st0.GetResourceID) ∧
      (cfg.Expires = 0 → st.Expiry = st0.Expiry) := by
  have hb := fastUnmarshal_ok_shape bytes r hdec
  subst hb
  have heval := unmarshal_enc_eval r st0 opts cfg hcol hcasd
  rw [heval] at hok
  simp only [Except.ok.injEq] at hok
  subst hok
  constructor
  · intro h0
    split <;>
      simp [h0, StaticTokensV2.GetResourceID, StaticTokensV2.SetExpiry,
        Metadata.SetExpiry]
  · intro h0
    have hz : cfg.Expires.IsZero = true := by simp [GoTime.IsZero, h0]
    simp only [hz, Bool.not_true, Bool.false_eq_true, if_false]
    split <;> rfl

theorem unmarshal_zero_overrides_not_applied_witness :
    teleportStaticTokensMarshaler.Unmarshal
        [WireItem.enc (DefaultStaticTokens.SetResourceID 7)] [] =
        .ok (DefaultStaticTokens.SetResourceID 7) ∧
      ((MarshalConfig.zero.ID = 0 →
          (DefaultStaticTokens.SetResourceID 7).GetResourceID =
            (DefaultStaticTokens.SetResourceID 7).GetResourceID) ∧
        (MarshalConfig.zero.Expires = 0 →
          (DefaultStaticTokens.SetResourceID 7).Expiry =
            (DefaultStaticTokens.SetResourceID 7).Expiry)) :=
  ⟨by decide,
    unmarshal_zero_overrides_not_applied
      [WireItem.enc (DefaultStaticTokens.SetResourceID 7)] []
      MarshalConfig.zero (DefaultStaticTokens.SetResourceID 7)
      (DefaultStaticTokens.SetResourceID 7) (DefaultStaticTokens.SetResourceID 7)
      rfl rfl (by decide) (by decide)⟩

theorem staticTokens_casd_idem (c c' : StaticTokensV2)
    (h : c.CheckAndSetDefaults = .ok c') : c'.CheckAndSetDefaults = .ok c' := by
  simp only [StaticTokensV2.CheckAndSetDefaults] at h ⊢
  cases hm : c.Metadata.CheckAndSetDefaults with
  | error e => rw [hm] at h; exact absurd h (by simp)
  | ok md =>
    rw [hm] at h
    simp only [Except.ok.injEq] at h
    subst h
    simp [metadata_casd_idem c.Metadata md hm]

/-- C8. Constructing via `NewStaticTokens` with an empty entry list yields the
canonical default resource; encoding and then decoding it returns a resource
with kind `static_tokens`, version `v2`, name `static_tokens`, the process
default namespace, and an empty entry list (likewise for the resource from
`DefaultStaticTokens`, which is the same value); and `NewStaticTokens` only
ever returns a resource on which `CheckAndSetDefaults` succeeded, so no
invalid instance escapes. -/
theorem newStaticTokens_empty_scenario :
    NewStaticTokens { StaticTokens := [] } = .ok DefaultStaticTokens ∧
      (teleportStaticTokensMarshaler.Marshal (.v2 DefaultStaticTokens) []).1 =
        .ok [WireItem.enc DefaultStaticTokens] ∧
      teleportStaticTokensMarshaler.Unmarshal
          [WireItem.enc DefaultStaticTokens] [] = .ok DefaultStaticTokens ∧
      DefaultStaticTokens.GetKind = KindStaticTokens ∧
      DefaultStaticTokens.GetVersion = V2 ∧
      DefaultStaticTokens.GetName = MetaNameStaticTokens ∧
      DefaultStaticTokens.Metadata.Namespace = defaultsNamespace ∧
      DefaultStaticTokens.Spec.StaticTokens = [] ∧
      (∀ spec st, NewStaticTokens spec = .ok st →
        st.CheckAndSetDefaults = .ok st) := by
  refine ⟨by decide, by decide, by decide, rfl, rfl, rfl, rfl, rfl, ?_⟩
  intro spec st h
  simp only [NewStaticTokens] at h
  split at h
  · exact absurd h (by simp)
  · rename_i st' hcasd
    simp only [Except.ok.injEq] at h
    subst h
    exact staticTokens_casd_idem _ _ hcasd

theorem newStaticTokens_empty_scenario_witness :
    NewStaticTokens { StaticTokens := [] } = .ok DefaultStaticTokens ∧
      DefaultStaticTokens.CheckAndSetDefaults = .ok DefaultStaticTokens :=
  ⟨newStaticTokens_empty_scenario.1,
    newStaticTokens_empty_scenario.2.2.2.2.2.2.2.2 { StaticTokens := [] }
      DefaultStaticTokens newStaticTokens_empty_scenario.1⟩
